import Mathlib

/-!
Verification development for the device-management core of the sane-airscan
backend (src/airscan-device.c).  The definitions below are a shallow
embedding of that file: pure C helpers become Lean functions, the device
record becomes a structure, and the event-loop callbacks become functions
from device state to device state, collected into a step relation.
Machine integers (SANE_Word, SANE_Int) are modelled as unbounded Int; the
claims under study quantify over well-formed inputs where overflow is not
at issue.
-/

/-! ## Geometry computation (device_geom_compute and the math helpers) -/

/-- Modelled from the spec: the math helper `math_max` (the math helpers
live in a header of this repository that is not part of `src/`).  Maximum
of two words, as used by the clamp in the geometry pseudocode. -/
def math_max (a b : Int) : Int :=
  if a > b then a else b

/-- Modelled from the spec: the math helper `math_min`. -/
def math_min (a b : Int) : Int :=
  if a < b then a else b

/-- Modelled from the spec: the math helper `math_bound`, the
`clamp(len, lo, hi)` of the geometry pseudocode. -/
def math_bound (x lo hi : Int) : Int :=
  if x < lo then lo else if x > hi then hi else x

/-- Modelled from the spec: the math helper `math_muldiv`, the
`skip × res / units` conversion of the geometry pseudocode; integer
multiply-then-divide, with C's truncating division. -/
def math_muldiv (a b c : Int) : Int :=
  Int.tdiv (a * b) c

/-- Modelled from the spec: the math helper `math_mm2px_res` converting a
length in millimetres (SANE fixed point, units of 1/65536 mm) to pixels at
the reference DPI given by `units` (`mm_to_px(tl, units)` in the spec's
pseudocode): the real-valued length in inches is `mm / (65536 * 25.4)`, so
the pixel count is `mm * units * 10 / 16645120`, rounded to nearest. -/
def math_mm2px_res (mm units : Int) : Int :=
  Int.ediv (mm * units * 10 + 8322560) 16645120

/-- Geometrical scan parameters (struct device_geom): requested offset and
length in reference-DPI pixels, pixels to skip at actual resolution. -/
structure device_geom where
  off : Int
  len : Int
  skip : Int
deriving DecidableEq, Repr

/-- Embedding of device_geom_compute (src/airscan-device.c:814-835). -/
def device_geom_compute (tl br minlen maxlen res units : Int) : device_geom :=
  let off0 := math_mm2px_res tl units
  let len0 := math_mm2px_res (br - tl) units
  let minlen1 := math_max minlen 1
  let len1 := math_bound len0 minlen1 maxlen
  if off0 + len1 > maxlen then
    { off := off0 - (off0 + len1 - maxlen)
      len := len1
      skip := math_muldiv (off0 + len1 - maxlen) res units }
  else
    { off := off0, len := len1, skip := 0 }

lemma math_mm2px_res_nonneg {mm units : Int} (hmm : 0 ≤ mm) (hu : 0 ≤ units) :
    0 ≤ math_mm2px_res mm units := by
  unfold math_mm2px_res
  have h10 : (0:Int) ≤ mm * units * 10 := by positivity
  have : (0:Int) ≤ mm * units * 10 + 8322560 := by omega
  exact Int.ediv_nonneg this (by norm_num)

lemma math_mm2px_res_zero (units : Int) : math_mm2px_res 0 units = 0 := by
  unfold math_mm2px_res
  norm_num

lemma math_bound_bounds {x lo hi : Int} (h : lo ≤ hi) :
    lo ≤ math_bound x lo hi ∧ math_bound x lo hi ≤ hi := by
  unfold math_bound
  split_ifs <;> omega

lemma math_max_min_le {minlen maxlen : Int} (h1 : 1 ≤ maxlen)
    (h2 : minlen ≤ maxlen) : math_max minlen 1 ≤ maxlen := by
  unfold math_max
  split_ifs <;> omega

/-- C1: for every well-formed input (0 ≤ tl ≤ br, maxlen ≥ 1,
minlen ≤ maxlen, res > 0, units > 0), device_geom_compute returns a triple
with off ≥ 0, off + len ≤ maxlen, max(minlen,1) ≤ len ≤ maxlen, and it is
idempotent (two calls on the same inputs return the same triple). -/
theorem device_geom_compute_wellformed
    (tl br minlen maxlen res units : Int)
    (htl : 0 ≤ tl) (hbr : tl ≤ br) (hmax : 1 ≤ maxlen)
    (hminmax : minlen ≤ maxlen) (hres : 0 < res) (hunits : 0 < units) :
    0 ≤ (device_geom_compute tl br minlen maxlen res units).off ∧
    (device_geom_compute tl br minlen maxlen res units).off
      + (device_geom_compute tl br minlen maxlen res units).len ≤ maxlen ∧
    math_max minlen 1 ≤ (device_geom_compute tl br minlen maxlen res units).len ∧
    (device_geom_compute tl br minlen maxlen res units).len ≤ maxlen ∧
    device_geom_compute tl br minlen maxlen res units
      = device_geom_compute tl br minlen maxlen res units := by
  have hoff : 0 ≤ math_mm2px_res tl units :=
    math_mm2px_res_nonneg htl (le_of_lt hunits)
  have hmle : math_max minlen 1 ≤ maxlen := math_max_min_le hmax hminmax
  obtain ⟨hb1, hb2⟩ := math_bound_bounds
    (x := math_mm2px_res (br - tl) units) hmle
  simp only [device_geom_compute]
  split_ifs with hclip <;>
    refine ⟨?_, ?_, ?_, ?_, trivial⟩ <;> dsimp only <;> omega

/-- Concrete instantiation of the C1 theorem, discharging its
well-formedness hypotheses at tl = br = 1mm (65536 in SANE fixed point),
minlen = 1, maxlen = 1, res = 1, units = 300. -/
theorem device_geom_compute_wellformed_witness :
    0 ≤ (device_geom_compute 65536 65536 1 1 1 300).off ∧
    (device_geom_compute 65536 65536 1 1 1 300).off
      + (device_geom_compute 65536 65536 1 1 1 300).len ≤ 1 ∧
    math_max 1 1 ≤ (device_geom_compute 65536 65536 1 1 1 300).len ∧
    (device_geom_compute 65536 65536 1 1 1 300).len ≤ 1 ∧
    device_geom_compute 65536 65536 1 1 1 300
      = device_geom_compute 65536 65536 1 1 1 300 :=
  device_geom_compute_wellformed 65536 65536 1 1 1 300
    (by decide) (by decide) (by decide) (by decide) (by decide) (by decide)

lemma one_le_math_max_one (a : Int) : 1 ≤ math_max a 1 := by
  unfold math_max
  split_ifs <;> omega

lemma math_muldiv_ne_zero_iff {a b c : Int} (ha : 0 ≤ a) (hb : 0 ≤ b)
    (hc : 0 < c) : math_muldiv a b c ≠ 0 ↔ c ≤ a * b := by
  unfold math_muldiv
  rw [Int.tdiv_eq_ediv (by positivity) (le_of_lt hc)]
  constructor
  · intro h
    by_contra hlt
    push_neg at hlt
    exact h (Int.ediv_eq_zero_of_lt (by positivity) hlt)
  · intro h
    have h1 : (1:Int) ≤ a * b / c := (Int.le_ediv_iff_mul_le hc).mpr (by omega)
    omega

/-- C2 counterexample: at tl = br = 65536 (1 mm in SANE fixed point),
minlen = 1, maxlen = 1, res = 1, units = 300 — a well-formed input with
br = tl — the pre-clipping off + len exceeds maxlen (12 + 1 > 1), yet the
returned skip is 0 because the conversion excess * res / units
(12 * 1 / 300) truncates to zero.  This refutes the claim that skip is
nonzero whenever the pre-clipping off + len exceeded maxlen. -/
theorem device_geom_compute_skip_counterexample :
    math_mm2px_res 65536 300
      + (device_geom_compute 65536 65536 1 1 1 300).len > 1 ∧
    (device_geom_compute 65536 65536 1 1 1 300).skip = 0 := by
  decide

/-- C2 (amended): for every well-formed input with br = tl,
device_geom_compute returns len = max(minlen,1) and an off clipped into
[0, maxlen - len]; the returned skip is 0 when the pre-clipping off + len
does not exceed maxlen, and otherwise equals the excess converted from
reference-DPI pixels to actual-resolution pixels by the truncating
integer computation excess * res / units — which is nonzero if and only
if excess * res is at least units. -/
theorem device_geom_compute_br_eq_tl
    (tl br minlen maxlen res units : Int)
    (htl : 0 ≤ tl) (heq : br = tl) (hmax : 1 ≤ maxlen)
    (hminmax : minlen ≤ maxlen) (hres : 0 < res) (hunits : 0 < units) :
    (device_geom_compute tl br minlen maxlen res units).len
      = math_max minlen 1 ∧
    0 ≤ (device_geom_compute tl br minlen maxlen res units).off ∧
    (device_geom_compute tl br minlen maxlen res units).off
      ≤ maxlen - (device_geom_compute tl br minlen maxlen res units).len ∧
    (math_mm2px_res tl units + math_max minlen 1 ≤ maxlen →
      (device_geom_compute tl br minlen maxlen res units).skip = 0) ∧
    (math_mm2px_res tl units + math_max minlen 1 > maxlen →
      (device_geom_compute tl br minlen maxlen res units).skip
        = math_muldiv (math_mm2px_res tl units + math_max minlen 1 - maxlen)
            res units ∧
      ((device_geom_compute tl br minlen maxlen res units).skip ≠ 0 ↔
        units ≤ (math_mm2px_res tl units + math_max minlen 1 - maxlen) * res)) := by
  have hone := one_le_math_max_one minlen
  have hmle := math_max_min_le hmax hminmax
  have hoff : 0 ≤ math_mm2px_res tl units :=
    math_mm2px_res_nonneg htl (le_of_lt hunits)
  simp only [device_geom_compute, heq, sub_self, math_mm2px_res_zero]
  have hlen : math_bound 0 (math_max minlen 1) maxlen = math_max minlen 1 := by
    unfold math_bound
    split_ifs <;> omega
  rw [hlen]
  split_ifs with hclip <;> dsimp only
  · refine ⟨rfl, by omega, by omega, by omega, fun h => ⟨rfl, ?_⟩⟩
    exact math_muldiv_ne_zero_iff (by omega) (le_of_lt hres) hunits
  · exact ⟨rfl, hoff, by omega, fun _ => rfl, by omega⟩

/-- Concrete instantiation of the amended C2 theorem, discharging its
hypotheses at tl = br = 0, minlen = 0, maxlen = 5, res = 100,
units = 300. -/
theorem device_geom_compute_br_eq_tl_witness :
    (device_geom_compute 0 0 0 5 100 300).len = math_max 0 1 ∧
    0 ≤ (device_geom_compute 0 0 0 5 100 300).off ∧
    (device_geom_compute 0 0 0 5 100 300).off
      ≤ 5 - (device_geom_compute 0 0 0 5 100 300).len ∧
    (math_mm2px_res 0 300 + math_max 0 1 ≤ 5 →
      (device_geom_compute 0 0 0 5 100 300).skip = 0) ∧
    (math_mm2px_res 0 300 + math_max 0 1 > 5 →
      (device_geom_compute 0 0 0 5 100 300).skip
        = math_muldiv (math_mm2px_res 0 300 + math_max 0 1 - 5) 100 300 ∧
      ((device_geom_compute 0 0 0 5 100 300).skip ≠ 0 ↔
        300 ≤ (math_mm2px_res 0 300 + math_max 0 1 - 5) * 100)) :=
  device_geom_compute_br_eq_tl 0 0 0 5 100 300
    (by decide) rfl (by decide) (by decide) (by decide) (by decide)

/-! ## The device record and its state machinery -/

/-- SANE status codes (the frontend status values of §6). -/
inductive SANE_Status
  | GOOD
  | UNSUPPORTED
  | CANCELLED
  | DEVICE_BUSY
  | INVAL
  | EOF
  | JAMMED
  | NO_DOCS
  | COVER_OPEN
  | IO_ERROR
  | NO_MEM
  | ACCESS_DENIED
deriving DecidableEq, Repr

/-- Device state machine states (src/airscan-device.c:62-71). -/
inductive DEVICE_STM_STATE
  | CLOSED
  | IDLE
  | SCANNING
  | CANCEL_REQ
  | CANCEL_WAIT
  | CANCELLING
  | CLEANUP
  | DONE
deriving DecidableEq, Repr

/-- The declaration order of DEVICE_STM_STATE, used by the working-state
range check. -/
def DEVICE_STM_STATE.toNat : DEVICE_STM_STATE → Nat
  | .CLOSED => 0
  | .IDLE => 1
  | .SCANNING => 2
  | .CANCEL_REQ => 3
  | .CANCEL_WAIT => 4
  | .CANCELLING => 5
  | .CLEANUP => 6
  | .DONE => 7

/-- Protocol operations (PROTO_OP of the protocol adapter). -/
inductive PROTO_OP
  | NONE
  | SCAN
  | LOAD
  | CHECK
  | CANCEL
  | CLEANUP
  | FINISH
deriving DecidableEq, Repr

/-- Decoded reply of a protocol operation (proto_result): the next
operation, an optional retry delay, a status and an optional payload — a
job location after SCAN, an encoded image after LOAD.  The err field of
the C struct is only logged and carries no model state.  Images and
locations are identified by numbers. -/
structure proto_result where
  next : PROTO_OP
  delay : Nat
  status : SANE_Status
  location : Option Nat
  image : Option Nat
deriving DecidableEq, Repr

/-- The device record (struct device, src/airscan-device.c:75-120),
restricted to fields this module reads or writes.  The flags bitset is
split into the two bits this module's state machine toggles after probing
(DEVICE_SCANNING, DEVICE_READING); queues hold image identifiers; the
cancel event, timers and in-flight query are armed/pending booleans. -/
structure device where
  refcnt : Int
  flags_scanning : Bool
  flags_reading : Bool
  /- option state (devopt fields consumed by this module) -/
  opt_tl_x : Int
  opt_br_x : Int
  opt_tl_y : Int
  opt_br_y : Int
  opt_resolution : Int
  caps_units : Int
  src_min_wid_px : Int
  src_max_wid_px : Int
  src_min_hei_px : Int
  src_max_hei_px : Int
  opt_params_format : Nat
  opt_params_lines : Int
  opt_params_pixels_per_line : Int
  opt_params_bytes_per_line : Int
  /- state machinery -/
  stm_state : DEVICE_STM_STATE
  stm_cancel_event : Bool
  stm_timer : Bool
  /- protocol handling -/
  location : Option Nat
  failed_attempt : Nat
  query_pending : Bool
  proto_op_current : PROTO_OP
  http_timer : Bool
  /- job state -/
  job_status : SANE_Status
  job_images_received : Nat
  job_skip_x : Int
  job_skip_y : Int
  /- read machinery -/
  read_non_blocking : Bool
  read_queue : List Nat
  read_image : Option Nat
  read_line_num : Int
  read_line_end : Int
  read_line_off : Int
  read_skip_lines : Int
  read_skip_bytes : Int

/-- A freshly created device (device_add, src:168-227): g_new0 zeroes the
whole record, so the state machine starts CLOSED with a GOOD job status,
an empty queue and nothing armed or pending. -/
def device_initial : device where
  refcnt := 1
  flags_scanning := false
  flags_reading := false
  opt_tl_x := 0
  opt_br_x := 0
  opt_tl_y := 0
  opt_br_y := 0
  opt_resolution := 0
  caps_units := 0
  src_min_wid_px := 0
  src_max_wid_px := 0
  src_min_hei_px := 0
  src_max_hei_px := 0
  opt_params_format := 0
  opt_params_lines := 0
  opt_params_pixels_per_line := 0
  opt_params_bytes_per_line := 0
  stm_state := .CLOSED
  stm_cancel_event := false
  stm_timer := false
  location := none
  failed_attempt := 0
  query_pending := false
  proto_op_current := .NONE
  http_timer := false
  job_status := .GOOD
  job_images_received := 0
  job_skip_x := 0
  job_skip_y := 0
  read_non_blocking := false
  read_queue := []
  read_image := none
  read_line_num := 0
  read_line_end := 0
  read_line_off := 0
  read_skip_lines := 0
  read_skip_bytes := 0

/-- device_stm_state_get (src:612-616): sequentially consistent load. -/
def device_stm_state_get (dev : device) : DEVICE_STM_STATE :=
  dev.stm_state

/-- device_stm_state_working (src:620-625): strictly between IDLE and
DONE. -/
def device_stm_state_working (dev : device) : Bool :=
  let state := device_stm_state_get dev
  decide (DEVICE_STM_STATE.toNat .IDLE < state.toNat
    ∧ state.toNat < DEVICE_STM_STATE.toNat .DONE)

/-- device_stm_state_set (src:629-641): store the state if it changed;
the stm_cond broadcast and the pollable signal carry no model state. -/
def device_stm_state_set (dev : device) (state : DEVICE_STM_STATE) : device :=
  if dev.stm_state ≠ state then { dev with stm_state := state } else dev

/-- device_http_cancel (src:501-509): cancel the in-flight HTTP request
and the HTTP retry timer. -/
def device_http_cancel (dev : device) : device :=
  { dev with query_pending := false, http_timer := false }

/-- device_proto_op_submit (src:437-460): record the current operation
and put its query in flight. -/
def device_proto_op_submit (dev : device) (op : PROTO_OP) : device :=
  { dev with proto_op_current := op, query_pending := true }

/-- device_proto_dummy_decode (src:464-473): the built-in decode for
PROTO_OP_CANCEL and PROTO_OP_CLEANUP; a zeroed result whose next
operation is FINISH. -/
def device_proto_dummy_decode : proto_result where
  next := .FINISH
  delay := 0
  status := .GOOD
  location := none
  image := none

/-- The status-update tail of device_job_set_status (src:943-952):
change the status if it differs, and purge the image queue when the new
status is CANCELLED. -/
def device_job_update_status (dev : device) (status : SANE_Status) : device :=
  if status ≠ dev.job_status then
    let dev := { dev with job_status := status }
    if status = .CANCELLED then { dev with read_queue := [] } else dev
  else dev

/-- device_job_set_status (src:915-953): GOOD is ignored; CANCELLED
always goes through; any other status is ignored once an image was
received or a non-good status is already pending. -/
def device_job_set_status (dev : device) (status : SANE_Status) : device :=
  match status with
  | .GOOD => dev
  | .CANCELLED => device_job_update_status dev status
  | _ =>
    if dev.job_images_received > 0 then dev
    else if dev.job_status ≠ .GOOD then dev
    else device_job_update_status dev status

/-- device_stm_cancel_perform (src:645-657): possible only once the
scanner returned a job location; then cancel pending HTTP activity, enter
CANCELLING, submit PROTO_OP_CANCEL and set the job status CANCELLED.
Returns none when no location exists yet (cancel must wait). -/
def device_stm_cancel_perform (dev : device) : Option device :=
  match dev.location with
  | some _ =>
    let d := device_http_cancel dev
    let d := device_stm_state_set d .CANCELLING
    let d := device_proto_op_submit d .CANCEL
    some (device_job_set_status d .CANCELLED)
  | none => none

/-- device_stm_cancel_event_callback (src:661-670): on cancel-event
delivery perform the cancel, or park in CANCEL_WAIT until the current
operation completes. -/
def device_stm_cancel_event_callback (dev : device) : device :=
  match device_stm_cancel_perform dev with
  | some d => d
  | none => device_stm_state_set dev .CANCEL_WAIT

/-- device_stm_cancel_req (src:674-684): compare-and-set
SCANNING → CANCEL_REQ; the returned Bool records whether the cancel
event was triggered. -/
def device_stm_cancel_req (dev : device) : device × Bool :=
  if dev.stm_state = .SCANNING then
    ({ dev with stm_state := .CANCEL_REQ }, true)
  else (dev, false)

/-- device_cancel (src:1211-1215). -/
def device_cancel (dev : device) : device :=
  (device_stm_cancel_req dev).1

/-- device_stm_timer_callback (src:688-693): the one-shot delay timer
fires and re-submits the recorded operation. -/
def device_stm_timer_callback (dev : device) : device :=
  device_proto_op_submit dev dev.proto_op_current

/-- The payload-saving part of device_stm_op_callback (src:709-726):
store the job location after PROTO_OP_SCAN, push an image on the read
queue (bumping the received counter and waking the reader) after
PROTO_OP_LOAD; either payload clears failed_attempt. -/
def device_stm_op_callback_save_payload (dev : device)
    (result : proto_result) : device :=
  if dev.proto_op_current = .SCAN then
    match result.location with
    | some loc => { dev with location := some loc, failed_attempt := 0 }
    | none => dev
  else if dev.proto_op_current = .LOAD then
    match result.image with
    | some image =>
      { dev with read_queue := dev.read_queue ++ [image],
                 job_images_received := dev.job_images_received + 1,
                 failed_attempt := 0 }
    | none => dev
  else dev

/-- First half of device_stm_op_callback (src:709-729): save a useful
payload, then update the job status from the decoded result. -/
def device_stm_op_callback_saved (dev : device) (result : proto_result) :
    device :=
  device_job_set_status (device_stm_op_callback_save_payload dev result)
    result.status

/-- Second half of device_stm_op_callback (src:731-771): FINISH
handling (defaulting to IO_ERROR when no image was received), delayed
cancellation from CANCEL_WAIT, state update for CANCEL/CLEANUP, and
either arming the delay timer or submitting the next operation. -/
def device_stm_op_callback_tail (dev : device) (result : proto_result) :
    device :=
  if result.next = .FINISH then
    let d :=
      if dev.job_images_received = 0 then
        device_job_set_status dev .IO_ERROR
      else dev
    device_stm_state_set d .DONE
  else if device_stm_state_get dev = .CANCEL_WAIT then
    match device_stm_cancel_perform dev with
    | some d => d
    | none => device_stm_state_set dev .DONE
  else
    let d :=
      if result.next = .CANCEL then device_stm_state_set dev .CANCELLING
      else if result.next = .CLEANUP then device_stm_state_set dev .CLEANUP
      else dev
    if result.delay ≠ 0 then
      { d with stm_timer := true, proto_op_current := result.next }
    else
      device_proto_op_submit d result.next

/-- device_stm_op_callback (src:697-771), on the decoded result of the
completed operation. -/
def device_stm_op_callback (dev : device) (result : proto_result) : device :=
  device_stm_op_callback_tail (device_stm_op_callback_saved dev result) result

/-- device_http_onerror (src:513-523): on an HTTP transport error, set
the job status IO_ERROR (through the sticky-status policy) and attempt a
graceful cancel; with no job location, go straight to DONE. -/
def device_http_onerror (dev : device) : device :=
  let d := device_job_set_status dev .IO_ERROR
  match device_stm_cancel_perform d with
  | some d2 => d2
  | none => device_stm_state_set d .DONE

/-! ## Start, open, close -/

/-- device_stm_start_scan (src:839-890): compute the geometry for both
axes, record the skip amounts, enter SCANNING and submit PROTO_OP_SCAN.
The proto_scan_params fill and the trace dump only feed the protocol
query builder and the log. -/
def device_stm_start_scan (dev : device) : device :=
  let geom_x := device_geom_compute dev.opt_tl_x dev.opt_br_x
    dev.src_min_wid_px dev.src_max_wid_px dev.opt_resolution dev.caps_units
  let geom_y := device_geom_compute dev.opt_tl_y dev.opt_br_y
    dev.src_min_hei_px dev.src_max_hei_px dev.opt_resolution dev.caps_units
  let d := { dev with job_skip_x := geom_x.skip, job_skip_y := geom_y.skip }
  let d := device_stm_state_set d .SCANNING
  device_proto_op_submit d .SCAN

/-- Outcome of a frontend call that may block on a condition variable:
blocked means the call is waiting for the event-loop thread and cannot
complete on a quiescent snapshot of the device. -/
inductive StartResult
  | blocked (dev : device)
  | ret (dev : device) (status : SANE_Status)

/-- device_start (src:1158-1207).  The first eloop_cond_wait loop is
modelled on a quiescent snapshot: when its condition holds the call is
blocked (the returned device carries the already-performed flag update).
The eloop_call marshalling of device_stm_start_scan is folded into the
same call, after which the second wait loop's condition (state still
IDLE) is already false. -/
def device_start (dev : device) : StartResult :=
  if dev.flags_scanning then .ret dev .INVAL
  else if dev.opt_params_lines = 0 ∨ dev.opt_params_pixels_per_line = 0 then
    .ret dev .INVAL
  else
    let d := { dev with flags_scanning := true, read_non_blocking := false }
    if device_stm_state_working d = true ∧ d.read_queue = [] then .blocked d
    else if d.read_queue ≠ [] then
      .ret { d with flags_reading := true } .GOOD
    else
      let d := device_stm_state_set d .IDLE
      let d := { d with job_status := .GOOD, location := none,
                        failed_attempt := 0, job_images_received := 0 }
      let d := device_stm_start_scan d
      .ret { d with flags_reading := true } .GOOD

/-- The state-changing tail of device_open (src:1043-1082); the registry
lookup, the readiness wait and the READY check are registry concerns
outside this model.  On a device not in CLOSED the call is rejected
with DEVICE_BUSY; otherwise the cancel event is installed, the state
becomes IDLE and the handle takes a reference. -/
def device_open (dev : device) : device × SANE_Status :=
  if device_stm_state_get dev ≠ .CLOSED then (dev, .DEVICE_BUSY)
  else
    let d := { dev with stm_cancel_event := true }
    let d := device_stm_state_set d .IDLE
    ({ d with refcnt := d.refcnt + 1 }, .GOOD)

/-- device_close (src:1086-1101).  When the state machine is working the
call cancels and then blocks on stm_cond until the event loop finishes
the job (device_stm_cancel_wait); that blocking path cannot complete on
a quiescent snapshot and is modelled as none.  In the completing cases:
outside CLOSED the cancel event is freed, the state is set to CLOSED and
the handle's reference dropped; in CLOSED the call does nothing. -/
def device_close (dev : device) : Option device :=
  if device_stm_state_get dev ≠ .CLOSED then
    if device_stm_state_working dev then none
    else
      let d := { dev with stm_cancel_event := false }
      let d := device_stm_state_set d .CLOSED
      some { d with refcnt := d.refcnt - 1 }
  else some dev

/-! ## Read machinery -/

/-- Image parameters reported by the decoder (§6). -/
structure image_params where
  format : Nat
  pixels_per_line : Int
  lines : Int
  depth : Int
deriving DecidableEq, Repr

/-- Clipping window handed to the decoder (§6); the decoder may adjust
it. -/
structure image_window where
  x_off : Int
  y_off : Int
  wid : Int
  hei : Int
deriving DecidableEq, Repr

/-- Modelled from the spec: the image decoder interface of §6 (begin,
get_params, get_bytes_per_pixel, set_window, read_line); the JPEG decoder
itself is repository code outside src/.  A pure oracle keyed by the
image identifier: begin_ok and read_line_ok tell whether the respective
call succeeds, set_window returns the possibly adjusted window or none
on error. -/
structure image_decoder where
  begin_ok : Nat → Bool
  params : Nat → image_params
  bytes_per_pixel : Nat → Int
  set_window : Nat → image_window → Option image_window
  read_line_ok : Nat → Int → Bool

/-- device_read_next (src:1247-1344): pull the next encoded image from
the queue and start decoding it, validating the format and computing the
clipping from job_skip_x/y.  The one-line buffer and its 0xFF preload
carry no model state. -/
def device_read_next (dec : image_decoder) (dev : device) :
    device × SANE_Status :=
  match dev.read_queue with
  | [] => (dev, .EOF)
  | image :: rest =>
    let d := { dev with read_queue := rest, read_image := some image }
    if dec.begin_ok image = false then
      ({ d with read_image := none }, .IO_ERROR)
    else
      let params := dec.params image
      if params.format ≠ d.opt_params_format then
        ({ d with read_image := none }, .IO_ERROR)
      else
        let wid := params.pixels_per_line
        let hei := params.lines
        if d.job_skip_x ≥ wid ∨ d.job_skip_y ≥ hei then
          ({ d with read_skip_lines := hei, read_skip_bytes := 0,
                    read_line_num := 0,
                    read_line_off := d.opt_params_bytes_per_line,
                    read_line_end := hei - hei }, .GOOD)
        else
          let win0 : image_window :=
            { x_off := d.job_skip_x, y_off := d.job_skip_y,
              wid := wid - d.job_skip_x, hei := hei - d.job_skip_y }
          match dec.set_window image win0 with
          | none => ({ d with read_image := none }, .IO_ERROR)
          | some win =>
            let bpp := dec.bytes_per_pixel image
            let skip_bytes :=
              if win.x_off ≠ d.job_skip_x then bpp * (d.job_skip_x - win.x_off)
              else 0
            let skip_lines :=
              if win.y_off ≠ d.job_skip_y then d.job_skip_y - win.y_off
              else 0
            ({ d with read_skip_lines := skip_lines,
                      read_skip_bytes := skip_bytes,
                      read_line_num := 0,
                      read_line_off := d.opt_params_bytes_per_line,
                      read_line_end := hei - skip_lines }, .GOOD)

/-- device_read_decode_line (src:1360-1385): produce the next line in
the line buffer — all 0xFF outside the active range, decoded pixels
inside it — and reset the line offset to read_skip_bytes.  read_line is
asked of the decoder's current image (read is only entered with an
active image). -/
def device_read_decode_line (dec : image_decoder) (dev : device) :
    device × SANE_Status :=
  let n := dev.read_line_num
  if n = dev.opt_params_lines then (dev, .EOF)
  else if n < dev.read_skip_lines ∨ n ≥ dev.read_line_end then
    ({ dev with read_line_off := dev.read_skip_bytes,
                read_line_num := n + 1 }, .GOOD)
  else if dec.read_line_ok (dev.read_image.getD 0) n then
    ({ dev with read_line_off := dev.read_skip_bytes,
                read_line_num := n + 1 }, .GOOD)
  else (dev, .IO_ERROR)

/-- The line-by-line loop of device_read (src:1437-1449), with explicit
fuel bounding the iteration count: each pass either decodes the next
line or copies from the line buffer into the caller's buffer.  The fuel
passed by device_read exceeds the iterations the loop can make there, so
running out models no real behaviour. -/
def device_read_line_loop (dec : image_decoder) (dev : device)
    (max_len len : Int) (status : SANE_Status) :
    Nat → device × SANE_Status × Int
  | 0 => (dev, status, len)
  | fuel + 1 =>
    if status = .GOOD ∧ len < max_len then
      if dev.read_line_off = dev.opt_params_bytes_per_line then
        let r := device_read_decode_line dec dev
        device_read_line_loop dec r.1 max_len len r.2 fuel
      else
        let sz := math_min (max_len - len)
          (dev.opt_params_bytes_per_line - dev.read_line_off)
        device_read_line_loop dec
          { dev with read_line_off := dev.read_line_off + sz }
          max_len (len + sz) status fuel
    else (dev, status, len)

/-- Result of device_read.  fault models the store through a NULL
len_out; blocked means the call waits on stm_cond and cannot complete on
a quiescent snapshot. -/
inductive ReadResult
  | fault
  | blocked (dev : device)
  | ret (dev : device) (status : SANE_Status) (len : Int)

/-- The DONE tail of device_read (src:1457-1482): an EOF with bytes
already delivered turns into GOOD; a GOOD return delivers the byte
count; any other status cleans up the read machinery (flags, decoder,
current image, line buffer) and sends DONE back to IDLE once the queue
has drained. -/
def device_read_done (dev : device) (status : SANE_Status) (len : Int) :
    ReadResult :=
  let status := if status = .EOF ∧ len > 0 then .GOOD else status
  if status = .GOOD then .ret dev .GOOD len
  else
    let d := { dev with flags_scanning := false, flags_reading := false,
                        read_image := none }
    let d :=
      if device_stm_state_get d = .DONE ∧ d.read_queue = [] then
        device_stm_state_set d .IDLE
      else d
    .ret d status 0

/-- The line-reading half of device_read (src:1437-1455 plus the DONE
tail): run the loop, and on an IO error from decoding make the job
status IO_ERROR and request cancel. -/
def device_read_lines (dec : image_decoder) (dev : device) (max_len : Int) :
    ReadResult :=
  let r := device_read_line_loop dec dev max_len 0 .GOOD
    (max_len.toNat + dev.opt_params_lines.toNat + 2)
  let d := r.1
  let status := r.2.1
  let len := r.2.2
  if status = .IO_ERROR then
    let d := device_job_set_status d .IO_ERROR
    let d := device_cancel d
    device_read_done d status len
  else
    device_read_done d status len

/-- device_read (src:1389-1483).  len_out_null models a NULL len_out
argument: the function's first statement stores through len_out, so a
NULL pointer faults before the NULL validation at src:1403 (which is
therefore unreachable) is ever checked.  The wait loop is modelled on a
quiescent snapshot as in device_start. -/
def device_read (dec : image_decoder) (dev : device) (max_len : Int)
    (len_out_null : Bool) : ReadResult :=
  if len_out_null then .fault
  else if ¬ dev.flags_reading then .ret dev .INVAL 0
  else
    match dev.read_image with
    | none =>
      if device_stm_state_working dev = true ∧ dev.read_queue = [] then
        if dev.read_non_blocking then .ret dev .GOOD 0
        else .blocked dev
      else if dev.job_status = .CANCELLED then
        device_read_done dev .CANCELLED 0
      else if dev.read_queue = [] then
        device_read_done dev dev.job_status 0
      else
        let r := device_read_next dec dev
        if r.2 ≠ .GOOD then device_read_done r.1 r.2 0
        else device_read_lines dec r.1 max_len
    | some _ => device_read_lines dec dev max_len

/-! ## Basic lemmas about the state machinery -/

lemma device_stm_state_set_eq (dev : device) (st : DEVICE_STM_STATE) :
    device_stm_state_set dev st = { dev with stm_state := st } := by
  unfold device_stm_state_set
  split_ifs with h
  · rfl
  · push_neg at h
    rw [← h]

lemma device_job_set_status_GOOD (dev : device) :
    device_job_set_status dev .GOOD = dev := rfl

lemma device_job_update_status_cases (dev : device) (s : SANE_Status) :
    device_job_update_status dev s = dev ∨
    (s ≠ .CANCELLED ∧
      device_job_update_status dev s = { dev with job_status := s }) ∨
    (s = .CANCELLED ∧ device_job_update_status dev s
        = { dev with job_status := s, read_queue := [] }) := by
  unfold device_job_update_status
  split_ifs with h1 h2
  · exact Or.inr (Or.inr ⟨h2, rfl⟩)
  · exact Or.inr (Or.inl ⟨h2, rfl⟩)
  · exact Or.inl rfl

lemma device_job_set_status_default (dev : device) (s : SANE_Status)
    (hg : s ≠ .GOOD) (hc : s ≠ .CANCELLED) :
    device_job_set_status dev s =
      if dev.job_images_received > 0 then dev
      else if dev.job_status ≠ .GOOD then dev
      else device_job_update_status dev s := by
  cases s <;> first | rfl | exact absurd rfl hg | exact absurd rfl hc

lemma device_job_set_status_eq_update_or (dev : device) (s : SANE_Status) :
    device_job_set_status dev s = dev ∨
    device_job_set_status dev s = device_job_update_status dev s := by
  cases s
  case GOOD => exact Or.inl rfl
  case CANCELLED => exact Or.inr rfl
  all_goals
    (rw [device_job_set_status_default dev] <;>
      first
        | decide
        | (split_ifs <;> first | exact Or.inl rfl | exact Or.inr rfl))

lemma device_job_set_status_cases (dev : device) (s : SANE_Status) :
    device_job_set_status dev s = dev ∨
    (s ≠ .CANCELLED ∧
      device_job_set_status dev s = { dev with job_status := s }) ∨
    (s = .CANCELLED ∧ device_job_set_status dev s
        = { dev with job_status := s, read_queue := [] }) := by
  rcases device_job_set_status_eq_update_or dev s with h | h
  · exact Or.inl h
  · rcases device_job_update_status_cases dev s with h2 | ⟨a, b⟩ | ⟨a, b⟩
    · exact Or.inl (h.trans h2)
    · exact Or.inr (Or.inl ⟨a, h.trans b⟩)
    · exact Or.inr (Or.inr ⟨a, h.trans b⟩)

lemma device_job_set_status_of_cancelled {dev : device} (s : SANE_Status)
    (h : dev.job_status = .CANCELLED) : device_job_set_status dev s = dev := by
  cases s
  case GOOD => rfl
  case CANCELLED =>
    show device_job_update_status dev .CANCELLED = dev
    unfold device_job_update_status
    rw [if_neg (by rw [h]; simp)]
  all_goals
    simp only [device_job_set_status]
    by_cases hi : dev.job_images_received > 0
    · rw [if_pos hi]
    · rw [if_neg hi, if_pos (by rw [h]; simp)]

lemma device_job_set_status_job_status_cancelled {dev : device}
    {s : SANE_Status}
    (h : (device_job_set_status dev s).job_status = .CANCELLED) :
    s = .CANCELLED ∨ dev.job_status = .CANCELLED := by
  rcases device_job_set_status_cases dev s with hc | ⟨hne, hc⟩ | ⟨he, hc⟩
  · right; rwa [hc] at h
  · rw [hc] at h
    simp only at h
    exact Or.inl h
  · exact Or.inl he

lemma device_job_set_status_fields (dev : device) (s : SANE_Status) :
    (device_job_set_status dev s).proto_op_current = dev.proto_op_current ∧
    (device_job_set_status dev s).query_pending = dev.query_pending ∧
    (device_job_set_status dev s).stm_state = dev.stm_state ∧
    (device_job_set_status dev s).stm_timer = dev.stm_timer ∧
    (device_job_set_status dev s).job_images_received
      = dev.job_images_received ∧
    (device_job_set_status dev s).location = dev.location := by
  rcases device_job_set_status_cases dev s with hc | ⟨_, hc⟩ | ⟨_, hc⟩ <;>
    rw [hc] <;> exact ⟨rfl, rfl, rfl, rfl, rfl, rfl⟩

lemma device_job_set_status_queue (dev : device) (s : SANE_Status) :
    (device_job_set_status dev s).read_queue = dev.read_queue ∨
    (device_job_set_status dev s).read_queue = [] := by
  rcases device_job_set_status_cases dev s with hc | ⟨_, hc⟩ | ⟨_, hc⟩ <;>
    rw [hc]
  · exact Or.inl rfl
  · exact Or.inl rfl
  · exact Or.inr rfl

lemma device_job_set_status_queue_of_ne {dev : device} {s : SANE_Status}
    (h : s ≠ .CANCELLED) :
    (device_job_set_status dev s).read_queue = dev.read_queue := by
  rcases device_job_set_status_cases dev s with hc | ⟨_, hc⟩ | ⟨he, hc⟩
  · rw [hc]
  · rw [hc]
  · exact absurd he h

lemma device_job_set_status_CANCELLED (dev : device) :
    (device_job_set_status dev .CANCELLED).job_status = .CANCELLED ∧
    ((device_job_set_status dev .CANCELLED).read_queue = [] ∨
      (dev.job_status = .CANCELLED ∧
        (device_job_set_status dev .CANCELLED).read_queue
          = dev.read_queue)) := by
  by_cases hc : dev.job_status = .CANCELLED
  · rw [device_job_set_status_of_cancelled _ hc]
    exact ⟨hc, Or.inr ⟨hc, rfl⟩⟩
  · have he : device_job_set_status dev .CANCELLED
        = { dev with job_status := .CANCELLED, read_queue := [] } := by
      show device_job_update_status dev .CANCELLED = _
      unfold device_job_update_status
      rw [if_pos (fun heq => hc heq.symm), if_pos rfl]
    rw [he]
    exact ⟨rfl, Or.inl rfl⟩

/-! ## The cancel-perform characterization -/

lemma device_stm_cancel_perform_none {dev : device}
    (h : dev.location = none) : device_stm_cancel_perform dev = none := by
  unfold device_stm_cancel_perform
  rw [h]

lemma device_stm_cancel_perform_some {dev d : device}
    (h : device_stm_cancel_perform dev = some d) :
    d.job_status = .CANCELLED ∧
    (d.read_queue = [] ∨
      (dev.job_status = .CANCELLED ∧ d.read_queue = dev.read_queue)) ∧
    d.proto_op_current = .CANCEL ∧ d.stm_state = .CANCELLING ∧
    d.query_pending = true := by
  unfold device_stm_cancel_perform at h
  cases hl : dev.location with
  | none => rw [hl] at h; cases h
  | some loc =>
    rw [hl] at h
    simp only [device_http_cancel, device_stm_state_set_eq,
      device_proto_op_submit, Option.some.injEq] at h
    subst h
    obtain ⟨c1, c2⟩ := device_job_set_status_CANCELLED
      { dev with query_pending := true, http_timer := false,
                 stm_state := .CANCELLING, proto_op_current := .CANCEL }
    obtain ⟨f1, f2, f3, _⟩ := device_job_set_status_fields
      { dev with query_pending := true, http_timer := false,
                 stm_state := .CANCELLING, proto_op_current := .CANCEL }
      .CANCELLED
    exact ⟨c1, c2, f1, f3, f2⟩

/-! ## The cancelled-job invariant and the step relation -/

/-- The C4 invariant: a CANCELLED job has an empty image queue. -/
def cancelled_queue_empty (dev : device) : Prop :=
  dev.job_status = .CANCELLED → dev.read_queue = []

/-- Strengthening used by the reachability proof: while the job status is
CANCELLED the current protocol operation is PROTO_OP_CANCEL — the
cancellation machinery is the only source of CANCELLED and it submits
PROTO_OP_CANCEL in the same breath, whose decode is the built-in dummy
FINISH. -/
def cancelled_op_cancel (dev : device) : Prop :=
  dev.job_status = .CANCELLED → dev.proto_op_current = .CANCEL

def device_inv (dev : device) : Prop :=
  cancelled_queue_empty dev ∧ cancelled_op_cancel dev

lemma device_stm_op_callback_save_payload_fields (dev : device)
    (r : proto_result) :
    (device_stm_op_callback_save_payload dev r).job_status
      = dev.job_status ∧
    (device_stm_op_callback_save_payload dev r).proto_op_current
      = dev.proto_op_current ∧
    (device_stm_op_callback_save_payload dev r).stm_state = dev.stm_state := by
  unfold device_stm_op_callback_save_payload
  split_ifs
  · cases r.location <;> exact ⟨rfl, rfl, rfl⟩
  · cases r.image <;> exact ⟨rfl, rfl, rfl⟩
  · exact ⟨rfl, rfl, rfl⟩

lemma device_inv_vac {d : device} (hd : d.job_status ≠ .CANCELLED) :
    device_inv d :=
  ⟨fun hC => absurd hC hd, fun hC => absurd hC hd⟩

lemma device_inv_tail {s1 : device} (r : proto_result)
    (h : s1.job_status ≠ .CANCELLED) :
    device_inv (device_stm_op_callback_tail s1 r) := by
  unfold device_stm_op_callback_tail
  by_cases h1 : r.next = .FINISH
  · rw [if_pos h1]
    by_cases hi : s1.job_images_received = 0
    · rw [if_pos hi, device_stm_state_set_eq]
      apply device_inv_vac
      intro hC
      have hC' : (device_job_set_status s1 .IO_ERROR).job_status
          = .CANCELLED := hC
      rcases device_job_set_status_job_status_cancelled hC' with h' | h'
      · exact absurd h' (by decide)
      · exact h h'
    · rw [if_neg hi, device_stm_state_set_eq]
      exact device_inv_vac (fun hC => h hC)
  · rw [if_neg h1]
    by_cases h2 : device_stm_state_get s1 = .CANCEL_WAIT
    · rw [if_pos h2]
      cases hcp : device_stm_cancel_perform s1 with
      | some d =>
        obtain ⟨c1, c2, c3, _, _⟩ := device_stm_cancel_perform_some hcp
        exact ⟨fun _ => c2.elim id (fun hp => absurd hp.1 h), fun _ => c3⟩
      | none =>
        show device_inv (device_stm_state_set s1 .DONE)
        rw [device_stm_state_set_eq]
        exact device_inv_vac (fun hC => h hC)
    · rw [if_neg h2]
      set D := (if r.next = .CANCEL then device_stm_state_set s1 .CANCELLING
          else if r.next = .CLEANUP then device_stm_state_set s1 .CLEANUP
          else s1) with hDdef
      have hD : D.job_status = s1.job_status := by
        rw [hDdef]
        split_ifs <;> first | (rw [device_stm_state_set_eq]) | rfl
      split_ifs with hdel
      · apply device_inv_vac
        intro hC
        apply h
        rw [← hD]
        exact hC
      · apply device_inv_vac
        intro hC
        apply h
        rw [← hD]
        exact hC

lemma device_inv_op_callback {dev : device} (r : proto_result)
    (hdummy : dev.proto_op_current = .CANCEL
        ∨ dev.proto_op_current = .CLEANUP →
      r = device_proto_dummy_decode)
    (hst : r.status ≠ .CANCELLED)
    (hinv : device_inv dev) :
    device_inv (device_stm_op_callback dev r) := by
  by_cases hc : dev.job_status = .CANCELLED
  · have hop : dev.proto_op_current = .CANCEL := hinv.2 hc
    have hr : r = device_proto_dummy_decode := hdummy (Or.inl hop)
    subst hr
    have hsaved : device_stm_op_callback_saved dev device_proto_dummy_decode
        = dev := by
      unfold device_stm_op_callback_saved device_stm_op_callback_save_payload
      rw [hop]
      simp [device_proto_dummy_decode, device_job_set_status_GOOD]
    have hn : device_proto_dummy_decode.next = .FINISH := rfl
    have htail : device_stm_op_callback_tail dev device_proto_dummy_decode
        = { dev with stm_state := .DONE } := by
      unfold device_stm_op_callback_tail
      rw [if_pos hn]
      split_ifs with hi
      · rw [device_job_set_status_of_cancelled _ hc,
          device_stm_state_set_eq]
      · rw [device_stm_state_set_eq]
    unfold device_stm_op_callback
    rw [hsaved, htail]
    exact ⟨fun _ => hinv.1 hc, fun _ => hop⟩
  · have hs1 : (device_stm_op_callback_saved dev r).job_status
        ≠ .CANCELLED := by
      intro hC
      unfold device_stm_op_callback_saved at hC
      rcases device_job_set_status_job_status_cancelled hC with h' | h'
      · exact hst h'
      · rw [(device_stm_op_callback_save_payload_fields dev r).1] at h'
        exact hc h'
    exact device_inv_tail r hs1

lemma device_inv_cancel_event {dev : device} (hinv : device_inv dev) :
    device_inv (device_stm_cancel_event_callback dev) := by
  unfold device_stm_cancel_event_callback
  cases hcp : device_stm_cancel_perform dev with
  | some d =>
    obtain ⟨c1, c2, c3, _, _⟩ := device_stm_cancel_perform_some hcp
    exact ⟨fun _ => c2.elim id (fun hp => hp.2.trans (hinv.1 hp.1)),
      fun _ => c3⟩
  | none =>
    rw [device_stm_state_set_eq]
    exact ⟨fun hC => hinv.1 hC, fun hC => hinv.2 hC⟩

lemma device_inv_http_onerror {dev : device} (hinv : device_inv dev) :
    device_inv (device_http_onerror dev) := by
  have hinv1 : device_inv (device_job_set_status dev .IO_ERROR) := by
    constructor
    · intro hC
      have h' : dev.job_status = .CANCELLED := by
        rcases device_job_set_status_job_status_cancelled hC with h' | h'
        · exact absurd h' (by decide)
        · exact h'
      rw [device_job_set_status_of_cancelled _ h']
      exact hinv.1 h'
    · intro hC
      have h' : dev.job_status = .CANCELLED := by
        rcases device_job_set_status_job_status_cancelled hC with h' | h'
        · exact absurd h' (by decide)
        · exact h'
      rw [(device_job_set_status_fields dev .IO_ERROR).1]
      exact hinv.2 h'
  show device_inv
    (match device_stm_cancel_perform (device_job_set_status dev .IO_ERROR)
      with
    | some d2 => d2
    | none =>
      device_stm_state_set (device_job_set_status dev .IO_ERROR) .DONE)
  cases hcp : device_stm_cancel_perform (device_job_set_status dev .IO_ERROR)
    with
  | some d =>
    obtain ⟨c1, c2, c3, _, _⟩ := device_stm_cancel_perform_some hcp
    exact ⟨fun _ => c2.elim id (fun hp => hp.2.trans (hinv1.1 hp.1)),
      fun _ => c3⟩
  | none =>
    show device_inv
      (device_stm_state_set (device_job_set_status dev .IO_ERROR) .DONE)
    rw [device_stm_state_set_eq]
    exact ⟨fun hC => hinv1.1 hC, fun hC => hinv1.2 hC⟩

lemma device_inv_timer {dev : device} (hinv : device_inv dev) :
    device_inv (device_stm_timer_callback dev) := by
  unfold device_stm_timer_callback device_proto_op_submit
  exact ⟨fun hC => hinv.1 hC, fun hC => hinv.2 hC⟩

lemma device_inv_cancel {dev : device} (hinv : device_inv dev) :
    device_inv (device_cancel dev) := by
  unfold device_cancel device_stm_cancel_req
  split_ifs
  · exact ⟨fun hC => hinv.1 hC, fun hC => hinv.2 hC⟩
  · exact hinv

/-! ## Field preservation along the read and start paths -/

lemma device_cancel_fields (dev : device) :
    (device_cancel dev).job_status = dev.job_status ∧
    (device_cancel dev).read_queue = dev.read_queue ∧
    (device_cancel dev).proto_op_current = dev.proto_op_current := by
  unfold device_cancel device_stm_cancel_req
  split_ifs <;> exact ⟨rfl, rfl, rfl⟩

lemma device_read_decode_line_fields (dec : image_decoder) (dev : device) :
    (device_read_decode_line dec dev).1.job_status = dev.job_status ∧
    (device_read_decode_line dec dev).1.read_queue = dev.read_queue ∧
    (device_read_decode_line dec dev).1.proto_op_current
      = dev.proto_op_current := by
  simp only [device_read_decode_line]
  split_ifs <;> exact ⟨rfl, rfl, rfl⟩

lemma device_read_line_loop_fields (dec : image_decoder) (max_len : Int) :
    ∀ (fuel : Nat) (dev : device) (len : Int) (status : SANE_Status),
      (device_read_line_loop dec dev max_len len status fuel).1.job_status
        = dev.job_status ∧
      (device_read_line_loop dec dev max_len len status fuel).1.read_queue
        = dev.read_queue ∧
      (device_read_line_loop dec dev max_len len status
          fuel).1.proto_op_current
        = dev.proto_op_current := by
  intro fuel
  induction fuel with
  | zero => exact fun dev len status => ⟨rfl, rfl, rfl⟩
  | succ n ih =>
    intro dev len status
    simp only [device_read_line_loop]
    split_ifs with h1 h2
    · obtain ⟨e1, e2, e3⟩ := device_read_decode_line_fields dec dev
      obtain ⟨f1, f2, f3⟩ := ih (device_read_decode_line dec dev).1 len
        (device_read_decode_line dec dev).2
      exact ⟨f1.trans e1, f2.trans e2, f3.trans e3⟩
    · exact ih _ _ _
    · exact ⟨rfl, rfl, rfl⟩

lemma device_read_next_fields (dec : image_decoder) (dev : device) :
    (device_read_next dec dev).1.job_status = dev.job_status ∧
    ((device_read_next dec dev).1.read_queue = dev.read_queue ∨
      (device_read_next dec dev).1.read_queue = dev.read_queue.tail) ∧
    (device_read_next dec dev).1.proto_op_current
      = dev.proto_op_current := by
  unfold device_read_next
  rcases hq : dev.read_queue with _ | ⟨a, rest⟩
  · exact ⟨rfl, Or.inl hq, rfl⟩
  · dsimp only
    split_ifs <;>
      first
        | (simp; done)
        | (split <;> simp)

lemma device_read_done_fields {dev : device} {status : SANE_Status}
    {len : Int} {d : device} {s : SANE_Status} {l : Int}
    (h : device_read_done dev status len = .ret d s l) :
    d.job_status = dev.job_status ∧ d.read_queue = dev.read_queue ∧
    d.proto_op_current = dev.proto_op_current := by
  simp only [device_read_done] at h
  split_ifs at h <;>
    (injection h with h1 h2 h3
     subst h1
     simp [device_stm_state_set_eq])

lemma device_read_lines_fields {dec : image_decoder} {dev : device}
    {max_len : Int} {d : device} {s : SANE_Status} {l : Int}
    (h : device_read_lines dec dev max_len = .ret d s l) :
    (d.job_status = .CANCELLED → dev.job_status = .CANCELLED) ∧
    d.read_queue = dev.read_queue ∧
    d.proto_op_current = dev.proto_op_current := by
  simp only [device_read_lines] at h
  obtain ⟨f1, f2, f3⟩ := device_read_line_loop_fields dec max_len
    (max_len.toNat + dev.opt_params_lines.toNat + 2) dev 0 .GOOD
  split_ifs at h with hio
  · obtain ⟨g1, g2, g3⟩ := device_read_done_fields h
    obtain ⟨c1, c2, c3⟩ := device_cancel_fields
      (device_job_set_status
        (device_read_line_loop dec dev max_len 0 .GOOD
          (max_len.toNat + dev.opt_params_lines.toNat + 2)).1 .IO_ERROR)
    refine ⟨?_, ?_, ?_⟩
    · intro hC
      rw [g1, c1] at hC
      rcases device_job_set_status_job_status_cancelled hC with h' | h'
      · exact absurd h' (by decide)
      · rw [f1] at h'
        exact h'
    · rw [g2, c2, device_job_set_status_queue_of_ne (by decide), f2]
    · rw [g3, c3, (device_job_set_status_fields _ .IO_ERROR).1, f3]
  · obtain ⟨g1, g2, g3⟩ := device_read_done_fields h
    exact ⟨fun hC => f1 ▸ (g1 ▸ hC), g2.trans f2, g3.trans f3⟩

lemma device_read_fields {dec : image_decoder} {dev : device}
    {max_len : Int} {d : device} {s : SANE_Status} {l : Int}
    (h : device_read dec dev max_len false = .ret d s l) :
    (d.job_status = .CANCELLED → dev.job_status = .CANCELLED) ∧
    (d.read_queue = dev.read_queue ∨ d.read_queue = dev.read_queue.tail) ∧
    d.proto_op_current = dev.proto_op_current := by
  simp only [device_read] at h
  try rw [if_neg (by simp)] at h
  by_cases h1 : dev.flags_reading = true
  · rw [if_neg (by simp [h1])] at h
    rcases hri : dev.read_image with _ | img
    · rw [hri] at h
      dsimp only at h
      split_ifs at h
      · injection h with ha hb hc
        subst ha
        exact ⟨fun hC => hC, Or.inl rfl, rfl⟩
      · obtain ⟨g1, g2, g3⟩ := device_read_done_fields h
        exact ⟨fun hC => g1 ▸ hC, Or.inl g2, g3⟩
      · obtain ⟨g1, g2, g3⟩ := device_read_done_fields h
        exact ⟨fun hC => g1 ▸ hC, Or.inl g2, g3⟩
      · obtain ⟨n1, n2, n3⟩ := device_read_next_fields dec dev
        obtain ⟨g1, g2, g3⟩ := device_read_done_fields h
        refine ⟨fun hC => ?_, ?_, g3.trans n3⟩
        · rw [g1, n1] at hC
          exact hC
        · rcases n2 with n2 | n2
          · exact Or.inl (g2.trans n2)
          · exact Or.inr (g2.trans n2)
      · obtain ⟨n1, n2, n3⟩ := device_read_next_fields dec dev
        obtain ⟨g1, g2, g3⟩ := device_read_lines_fields h
        refine ⟨fun hC => ?_, ?_, g3.trans n3⟩
        · have hx := g1 hC
          rw [n1] at hx
          exact hx
        · rcases n2 with n2 | n2
          · exact Or.inl (g2.trans n2)
          · exact Or.inr (g2.trans n2)
    · rw [hri] at h
      dsimp only at h
      obtain ⟨g1, g2, g3⟩ := device_read_lines_fields h
      exact ⟨g1, Or.inl g2, g3⟩
  · rw [if_pos (by simp [h1])] at h
    injection h with ha hb hc
    subst ha
    exact ⟨fun hC => hC, Or.inl rfl, rfl⟩

lemma device_inv_read {dec : image_decoder} {dev d : device}
    {max_len : Int} {s : SANE_Status} {l : Int}
    (h : device_read dec dev max_len false = .ret d s l)
    (hinv : device_inv dev) : device_inv d := by
  obtain ⟨g1, g2, g3⟩ := device_read_fields h
  constructor
  · intro hC
    have hdev := hinv.1 (g1 hC)
    rcases g2 with g2 | g2
    · rw [g2, hdev]
    · rw [g2, hdev]
      rfl
  · intro hC
    rw [g3]
    exact hinv.2 (g1 hC)

lemma device_start_ret_cases {dev d : device} {status : SANE_Status}
    (h : device_start dev = .ret d status) :
    d = dev ∨
    d = { dev with flags_scanning := true, read_non_blocking := false,
                   flags_reading := true } ∨
    d.job_status = .GOOD := by
  simp only [device_start] at h
  split_ifs at h <;>
    first
      | exact StartResult.noConfusion h
      | (injection h with ha hb
         first
           | exact Or.inl ha.symm
           | exact Or.inr (Or.inl ha.symm)
           | exact Or.inr (Or.inr (by
               rw [← ha]
               simp [device_stm_start_scan, device_stm_state_set_eq,
                 device_proto_op_submit])))

lemma device_inv_start {dev d : device} {status : SANE_Status}
    (h : device_start dev = .ret d status) (hinv : device_inv dev) :
    device_inv d := by
  rcases device_start_ret_cases h with he | he | he
  · exact he ▸ hinv
  · subst he
    exact ⟨fun hC => hinv.1 hC, fun hC => hinv.2 hC⟩
  · exact device_inv_vac (fun hC => by rw [he] at hC; cases hC)

lemma device_inv_open {dev : device} (hinv : device_inv dev) :
    device_inv (device_open dev).1 := by
  unfold device_open
  split_ifs
  · exact hinv
  · simp only [device_stm_state_set_eq]
    exact ⟨fun hC => hinv.1 hC, fun hC => hinv.2 hC⟩

lemma device_inv_close {dev d : device} (h : device_close dev = some d)
    (hinv : device_inv dev) : device_inv d := by
  unfold device_close at h
  split_ifs at h
  · injection h with ha
    subst ha
    simp only [device_stm_state_set_eq]
    exact ⟨fun hC => hinv.1 hC, fun hC => hinv.2 hC⟩
  · injection h with ha
    exact ha ▸ hinv

/-- One transition of the device record: an event-loop callback (operation
completion, cancel event, delay timer, HTTP transport error), or a
frontend call (open, close, start, read, cancel, set option or I/O mode).
A completed query is consumed by its callback — or by its failure, for
onerror.  Decode results are environment input, constrained by this
module's device_proto_op_decode: PROTO_OP_CANCEL and PROTO_OP_CLEANUP
decode with the built-in dummy; for the remaining operations the result
is arbitrary except that — modelled from the spec (§4.3, §7) — protocol
decoders report GOOD or a terminal error, CANCELLED originating only in
the cancellation machinery, and always name a real next operation. -/
inductive device_step (dec : image_decoder) : device → device → Prop
  | op_callback (dev : device) (result : proto_result)
      (hq : dev.query_pending = true)
      (hdummy : dev.proto_op_current = .CANCEL
          ∨ dev.proto_op_current = .CLEANUP →
        result = device_proto_dummy_decode)
      (hst : result.status ≠ .CANCELLED)
      (hnx : result.next ≠ .NONE) :
      device_step dec dev
        (device_stm_op_callback { dev with query_pending := false } result)
  | cancel_event_callback (dev : device)
      (hs : dev.stm_state = .CANCEL_REQ) :
      device_step dec dev (device_stm_cancel_event_callback dev)
  | timer_fire (dev : device)
      (ht : dev.stm_timer = true) :
      device_step dec dev
        (device_stm_timer_callback { dev with stm_timer := false })
  | http_onerror (dev : device)
      (hq : dev.query_pending = true) :
      device_step dec dev
        (device_http_onerror { dev with query_pending := false })
  | cancel (dev : device) :
      device_step dec dev (device_cancel dev)
  | start (dev d : device) (status : SANE_Status)
      (h : device_start dev = .ret d status) :
      device_step dec dev d
  | read (dev d : device) (max_len len : Int) (status : SANE_Status)
      (h : device_read dec dev max_len false = .ret d status len) :
      device_step dec dev d
  | open_frontend (dev : device) :
      device_step dec dev (device_open dev).1
  | close_frontend (dev d : device) (h : device_close dev = some d) :
      device_step dec dev d
  | set_option_values (dev : device)
      (tlx brx tly bry res units minw maxw minh maxh : Int) (fmt : Nat)
      (lines ppl bpl : Int)
      (h : dev.flags_scanning = false) :
      device_step dec dev
        { dev with opt_tl_x := tlx, opt_br_x := brx, opt_tl_y := tly,
                   opt_br_y := bry, opt_resolution := res,
                   caps_units := units, src_min_wid_px := minw,
                   src_max_wid_px := maxw, src_min_hei_px := minh,
                   src_max_hei_px := maxh, opt_params_format := fmt,
                   opt_params_lines := lines,
                   opt_params_pixels_per_line := ppl,
                   opt_params_bytes_per_line := bpl }
  | set_io_mode (dev : device) (nb : Bool)
      (h : dev.flags_scanning = true) :
      device_step dec dev { dev with read_non_blocking := nb }

/-- All device states reachable from a freshly created device. -/
def device_reachable (dec : image_decoder) (dev : device) : Prop :=
  Relation.ReflTransGen (device_step dec) device_initial dev

lemma device_inv_initial : device_inv device_initial :=
  device_inv_vac (by intro h; cases h)

lemma device_inv_step {dec : image_decoder} {dev d : device}
    (h : device_step dec dev d) (hinv : device_inv dev) : device_inv d := by
  cases h with
  | op_callback result hq hdummy hst hnx =>
    exact device_inv_op_callback result hdummy hst
      ⟨fun hC => hinv.1 hC, fun hC => hinv.2 hC⟩
  | cancel_event_callback hs => exact device_inv_cancel_event hinv
  | timer_fire ht =>
    exact device_inv_timer ⟨fun hC => hinv.1 hC, fun hC => hinv.2 hC⟩
  | http_onerror hq =>
    exact device_inv_http_onerror ⟨fun hC => hinv.1 hC, fun hC => hinv.2 hC⟩
  | cancel => exact device_inv_cancel hinv
  | start d status h => exact device_inv_start h hinv
  | read d max_len len status h => exact device_inv_read h hinv
  | open_frontend => exact device_inv_open hinv
  | close_frontend d h => exact device_inv_close h hinv
  | set_option_values tlx brx tly bry res units minw maxw minh maxh
      fmt lines ppl bpl h =>
    exact ⟨fun hC => hinv.1 hC, fun hC => hinv.2 hC⟩
  | set_io_mode nb h =>
    exact ⟨fun hC => hinv.1 hC, fun hC => hinv.2 hC⟩

lemma device_reachable_inv {dec : image_decoder} {dev : device}
    (h : device_reachable dec dev) : device_inv dev := by
  induction h with
  | refl => exact device_inv_initial
  | tail hsteps hstep ih => exact device_inv_step hstep ih

/-! ## Claim theorems -/

/-- A trivial decoder oracle for concrete instantiations. -/
def image_decoder_trivial : image_decoder where
  begin_ok := fun _ => true
  params := fun _ => { format := 0, pixels_per_line := 0, lines := 0, depth := 8 }
  bytes_per_pixel := fun _ => 3
  set_window := fun _ w => some w
  read_line_ok := fun _ _ => true

/-- C3: device_job_set_status, on a device satisfying the cancelled-queue
invariant (which C4 shows holds for every reachable device): GOOD leaves
the device unchanged; CANCELLED always becomes the job status and leaves
the queue purged; any other status is ignored when at least one image was
received or the current status is already non-good, and otherwise becomes
the job status without touching the queue. -/
theorem device_job_set_status_spec (dev : device) (s : SANE_Status)
    (hinv : dev.job_status = .CANCELLED → dev.read_queue = []) :
    device_job_set_status dev .GOOD = dev ∧
    ((device_job_set_status dev .CANCELLED).job_status = .CANCELLED ∧
      (device_job_set_status dev .CANCELLED).read_queue = []) ∧
    (s ≠ .GOOD → s ≠ .CANCELLED →
      ((dev.job_images_received > 0 ∨ dev.job_status ≠ .GOOD) →
        device_job_set_status dev s = dev) ∧
      (dev.job_images_received = 0 → dev.job_status = .GOOD →
        (device_job_set_status dev s).job_status = s ∧
        (device_job_set_status dev s).read_queue = dev.read_queue)) := by
  refine ⟨rfl, ?_, ?_⟩
  · obtain ⟨c1, c2⟩ := device_job_set_status_CANCELLED dev
    exact ⟨c1, c2.elim id (fun hp => hp.2.trans (hinv hp.1))⟩
  · intro hg hc
    rw [device_job_set_status_default dev s hg hc]
    constructor
    · intro hor
      by_cases hi : dev.job_images_received > 0
      · rw [if_pos hi]
      · rcases hor with hi2 | hs
        · exact absurd hi2 hi
        · rw [if_neg hi, if_pos hs]
    · intro h0 hG
      rw [if_neg (by omega), if_neg (by simp [hG])]
      unfold device_job_update_status
      rw [if_pos (by rw [hG]; exact hg), if_neg hc]
      exact ⟨rfl, rfl⟩

/-- Concrete instantiation of the C3 theorem at a freshly created device
and status INVAL. -/
theorem device_job_set_status_spec_witness :
    device_job_set_status device_initial .GOOD = device_initial ∧
    ((device_job_set_status device_initial .CANCELLED).job_status
        = .CANCELLED ∧
      (device_job_set_status device_initial .CANCELLED).read_queue = []) ∧
    (SANE_Status.INVAL ≠ .GOOD → SANE_Status.INVAL ≠ .CANCELLED →
      ((device_initial.job_images_received > 0
          ∨ device_initial.job_status ≠ .GOOD) →
        device_job_set_status device_initial .INVAL = device_initial) ∧
      (device_initial.job_images_received = 0 →
        device_initial.job_status = .GOOD →
        (device_job_set_status device_initial .INVAL).job_status
            = .INVAL ∧
        (device_job_set_status device_initial .INVAL).read_queue
            = device_initial.read_queue)) :=
  device_job_set_status_spec device_initial .INVAL (by decide)

/-- C4: in every reachable device state a CANCELLED job status implies an
empty image queue; reachability covers the operation-completion callback
(in particular the PROTO_OP_LOAD path that pushes images on the queue)
and every job-status update. -/
theorem device_reachable_cancelled_queue_empty (dec : image_decoder)
    (dev : device) (h : device_reachable dec dev) :
    dev.job_status = .CANCELLED → dev.read_queue = [] :=
  (device_reachable_inv h).1

/-- Concrete instantiation of C4 at a freshly created device. -/
theorem device_reachable_cancelled_queue_empty_witness :
    device_reachable image_decoder_trivial device_initial ∧
    (device_initial.job_status = .CANCELLED →
      device_initial.read_queue = []) :=
  ⟨Relation.ReflTransGen.refl,
    device_reachable_cancelled_queue_empty image_decoder_trivial
      device_initial Relation.ReflTransGen.refl⟩

/-- C5: device_cancel / device_stm_cancel_req perform a compare-and-set:
the cancel event is triggered iff the state was SCANNING, in which case
the state becomes CANCEL_REQ and nothing else changes; in any other state
(including a second cancel racing while already in CANCEL_REQ) the device
is left untouched and no event is triggered. -/
theorem device_stm_cancel_req_spec (dev : device) :
    ((device_stm_cancel_req dev).2 = true ↔ dev.stm_state = .SCANNING) ∧
    (dev.stm_state = .SCANNING →
      (device_stm_cancel_req dev).1
        = { dev with stm_state := .CANCEL_REQ }) ∧
    (dev.stm_state ≠ .SCANNING →
      device_stm_cancel_req dev = (dev, false)) ∧
    device_cancel dev = (device_stm_cancel_req dev).1 ∧
    ((device_stm_cancel_req dev).2 = true →
      device_stm_cancel_req (device_stm_cancel_req dev).1
        = ((device_stm_cancel_req dev).1, false)) := by
  by_cases hs : dev.stm_state = .SCANNING
  · have he : device_stm_cancel_req dev
        = ({ dev with stm_state := .CANCEL_REQ }, true) := by
      unfold device_stm_cancel_req
      rw [if_pos hs]
    have he2 : device_stm_cancel_req { dev with stm_state := .CANCEL_REQ }
        = ({ dev with stm_state := .CANCEL_REQ }, false) := by
      unfold device_stm_cancel_req
      rw [if_neg (by simp)]
    unfold device_cancel
    rw [he]
    refine ⟨by simp [hs], fun _ => rfl, fun hn => absurd hs hn, rfl,
      fun _ => ?_⟩
    dsimp only
    exact he2
  · have he : device_stm_cancel_req dev = (dev, false) := by
      unfold device_stm_cancel_req
      rw [if_neg hs]
    unfold device_cancel
    rw [he]
    refine ⟨by simp [hs], fun hp => absurd hp hs, fun _ => rfl, rfl,
      fun hp => absurd hp (by simp)⟩

/-- C6: whenever a decoded result carries next = FINISH the operation
callback drives the state machine to DONE; and — at that point, after
the payload save and the status update from the result — a job with zero
received images and a still-good status is defaulted to IO_ERROR, while
an already-set non-good status (including CANCELLED) survives. -/
theorem device_stm_op_callback_finish_spec (dev : device)
    (r : proto_result) (h : r.next = .FINISH) :
    (device_stm_op_callback dev r).stm_state = .DONE ∧
    ((device_stm_op_callback_saved dev r).job_images_received = 0 →
      (device_stm_op_callback_saved dev r).job_status = .GOOD →
      (device_stm_op_callback dev r).job_status = .IO_ERROR) ∧
    ((device_stm_op_callback_saved dev r).job_status ≠ .GOOD →
      (device_stm_op_callback dev r).job_status
        = (device_stm_op_callback_saved dev r).job_status) := by
  unfold device_stm_op_callback device_stm_op_callback_tail
  rw [if_pos h, device_stm_state_set_eq]
  set s1 := device_stm_op_callback_saved dev r with hs1
  refine ⟨rfl, ?_, ?_⟩
  · intro h0 hG
    show (if s1.job_images_received = 0
        then device_job_set_status s1 .IO_ERROR else s1).job_status
      = .IO_ERROR
    rw [if_pos h0,
      device_job_set_status_default s1 .IO_ERROR (by decide) (by decide),
      if_neg (by omega), if_neg (by simp [hG])]
    unfold device_job_update_status
    rw [if_pos (by rw [hG]; decide), if_neg (by decide)]
  · intro hng
    show (if s1.job_images_received = 0
        then device_job_set_status s1 .IO_ERROR else s1).job_status
      = s1.job_status
    split_ifs with h0
    · rw [device_job_set_status_default s1 .IO_ERROR (by decide) (by decide),
        if_neg (by omega), if_pos hng]
    · rfl

/-- Concrete instantiation of the C6 theorem at a freshly created device
and the dummy decode result (whose next operation is FINISH). -/
theorem device_stm_op_callback_finish_spec_witness :
    (device_stm_op_callback device_initial
        device_proto_dummy_decode).stm_state = .DONE ∧
    ((device_stm_op_callback_saved device_initial
          device_proto_dummy_decode).job_images_received = 0 →
      (device_stm_op_callback_saved device_initial
          device_proto_dummy_decode).job_status = .GOOD →
      (device_stm_op_callback device_initial
          device_proto_dummy_decode).job_status = .IO_ERROR) ∧
    ((device_stm_op_callback_saved device_initial
          device_proto_dummy_decode).job_status ≠ .GOOD →
      (device_stm_op_callback device_initial
          device_proto_dummy_decode).job_status
        = (device_stm_op_callback_saved device_initial
            device_proto_dummy_decode).job_status) :=
  device_stm_op_callback_finish_spec device_initial
    device_proto_dummy_decode rfl

lemma device_stm_cancel_perform_eq_none {dev : device}
    (h : device_stm_cancel_perform dev = none) : dev.location = none := by
  unfold device_stm_cancel_perform at h
  cases hl : dev.location with
  | none => rfl
  | some loc => rw [hl] at h; cases h

/-- The device of the C7 counterexample: scanning, one image already
received (job status still GOOD), no job location yet. -/
def device_http_onerror_cex : device :=
  { device_initial with stm_state := .SCANNING, flags_scanning := true,
                        job_images_received := 1 }

/-- C7 counterexample: an HTTP transport error on a device that has
already delivered an image leaves the job status GOOD and moves to DONE —
the job status is not forced to IO_ERROR as the claim states, because the
IO_ERROR write goes through the sticky-status policy of
device_job_set_status, which drops it once an image was received. -/
theorem device_http_onerror_counterexample :
    (device_http_onerror device_http_onerror_cex).job_status
      ≠ .IO_ERROR ∧
    (device_http_onerror device_http_onerror_cex).job_status = .GOOD ∧
    (device_http_onerror device_http_onerror_cex).stm_state = .DONE := by
  decide

/-- C7 (amended): on an HTTP transport error the job status is updated to
IO_ERROR through the sticky-status policy — the write is dropped when an
image was already received or a non-good status is already set; then a
graceful cancel is attempted: with a job location present the in-flight
HTTP activity is cancelled, the state becomes CANCELLING, PROTO_OP_CANCEL
is submitted and the job status ends up CANCELLED; with no job location
the state machine simply moves to DONE. -/
theorem device_http_onerror_spec (dev : device) :
    (dev.job_images_received = 0 → dev.job_status = .GOOD →
      (device_job_set_status dev .IO_ERROR).job_status = .IO_ERROR) ∧
    (dev.job_images_received > 0 ∨ dev.job_status ≠ .GOOD →
      device_job_set_status dev .IO_ERROR = dev) ∧
    (dev.location ≠ none →
      (device_http_onerror dev).stm_state = .CANCELLING ∧
      (device_http_onerror dev).proto_op_current = .CANCEL ∧
      (device_http_onerror dev).query_pending = true ∧
      (device_http_onerror dev).job_status = .CANCELLED) ∧
    (dev.location = none →
      device_http_onerror dev
        = device_stm_state_set (device_job_set_status dev .IO_ERROR)
            .DONE) := by
  have hone : device_http_onerror dev
      = match device_stm_cancel_perform
          (device_job_set_status dev .IO_ERROR) with
        | some d2 => d2
        | none =>
          device_stm_state_set (device_job_set_status dev .IO_ERROR)
            .DONE := rfl
  refine ⟨?_, ?_, ?_, ?_⟩
  · intro h0 hG
    rw [device_job_set_status_default dev .IO_ERROR (by decide) (by decide),
      if_neg (by omega), if_neg (by simp [hG])]
    unfold device_job_update_status
    rw [if_pos (by rw [hG]; decide), if_neg (by decide)]
  · intro hor
    rw [device_job_set_status_default dev .IO_ERROR (by decide) (by decide)]
    by_cases hi : dev.job_images_received > 0
    · rw [if_pos hi]
    · rcases hor with hi2 | hs
      · exact absurd hi2 hi
      · rw [if_neg hi, if_pos hs]
  · intro hl
    rw [hone]
    cases hcp : device_stm_cancel_perform
        (device_job_set_status dev .IO_ERROR) with
    | some d2 =>
      obtain ⟨c1, c2, c3, c4, c5⟩ := device_stm_cancel_perform_some hcp
      exact ⟨c4, c3, c5, c1⟩
    | none =>
      have := device_stm_cancel_perform_eq_none hcp
      rw [(device_job_set_status_fields dev .IO_ERROR).2.2.2.2.2] at this
      exact absurd this hl
  · intro hl
    rw [hone, device_stm_cancel_perform_none
      (by rw [(device_job_set_status_fields dev .IO_ERROR).2.2.2.2.2]
          exact hl)]

/-- Selects the returned status of a completed device_read. -/
def ReadResult.statusOf : ReadResult → Option SANE_Status
  | .ret _ s _ => some s
  | _ => none

/-- The device of the C8 counterexample: READING set, no image being
decoded, empty queue, non-blocking mode — but the state machine has
already finished (DONE) with a sticky IO_ERROR. -/
def device_read_cex : device :=
  { device_initial with flags_reading := true, read_non_blocking := true,
                        stm_state := .DONE, job_status := .IO_ERROR }

/-- C8 counterexample: with READING set, no image being decoded, an empty
queue and non-blocking mode, but the state machine already in DONE with a
sticky IO_ERROR, read returns IO_ERROR and not GOOD with 0 bytes: the
claim misses the condition that the state machine is still working. -/
theorem device_read_nonblocking_counterexample :
    (device_read image_decoder_trivial device_read_cex 10
        false).statusOf = some .IO_ERROR ∧
    device_read_cex.flags_reading = true ∧
    device_read_cex.read_image = none ∧
    device_read_cex.read_queue = [] ∧
    device_read_cex.read_non_blocking = true := by
  decide

/-- C8 (amended): for every device with READING set, no image being
decoded, an empty queue, and the state machine still in a working state,
device_read in non-blocking mode immediately returns GOOD with 0 bytes
delivered and the device untouched. -/
theorem device_read_nonblocking_empty (dec : image_decoder)
    (dev : device) (max_len : Int) (hr : dev.flags_reading = true)
    (hi : dev.read_image = none) (hq : dev.read_queue = [])
    (hw : device_stm_state_working dev = true)
    (hnb : dev.read_non_blocking = true) :
    device_read dec dev max_len false = .ret dev .GOOD 0 := by
  unfold device_read
  rw [if_neg (by simp), if_neg (by simp [hr]), hi]
  show (if device_stm_state_working dev = true ∧ dev.read_queue = []
      then if dev.read_non_blocking then ReadResult.ret dev .GOOD 0
           else ReadResult.blocked dev
      else _) = ReadResult.ret dev .GOOD 0
  rw [if_pos ⟨hw, hq⟩, if_pos (by rw [hnb])]

/-- Concrete instantiation of the amended C8 theorem on a scanning
device in non-blocking mode with nothing buffered. -/
theorem device_read_nonblocking_empty_witness :
    device_read image_decoder_trivial
      { device_initial with flags_reading := true,
                            read_non_blocking := true,
                            stm_state := .SCANNING } 10 false
      = .ret { device_initial with flags_reading := true,
                                   read_non_blocking := true,
                                   stm_state := .SCANNING } .GOOD 0 :=
  device_read_nonblocking_empty image_decoder_trivial _ 10
    rfl rfl rfl (by decide) rfl

/-- C9: device_read with a NULL len_out faults: the first statement of
the function stores 0 through len_out before any validation runs, so the
NULL check at src:1403 is dead code and INVAL is never returned for a
NULL len_out. -/
theorem device_read_null_len_out (dec : image_decoder) (dev : device)
    (max_len : Int) :
    device_read dec dev max_len true = ReadResult.fault := rfl

/-- C10: device_close on a device whose state machine is already CLOSED
is a no-op — it returns the very same device: no state change, the cancel
event is kept, the reference count is kept; moreover every completed
close leaves the machine CLOSED, so a close following a completed close
is exactly that no-op: close after close equals a single close. -/
theorem device_close_idempotent (dev : device)
    (h : dev.stm_state = .CLOSED) :
    device_close dev = some dev ∧
    (∀ e d : device, device_close e = some d →
      device_close d = some d) := by
  constructor
  · unfold device_close
    rw [if_neg (by simp [device_stm_state_get, h])]
  · intro e d he
    have hd : d.stm_state = .CLOSED := by
      unfold device_close at he
      split_ifs at he with h1 h2
      · injection he with ha
        subst ha
        simp [device_stm_state_set_eq]
      · injection he with ha
        subst ha
        rw [not_not] at h1
        exact h1
    unfold device_close
    rw [if_neg (by simp [device_stm_state_get, hd])]

/-- Concrete instantiation of the C10 theorem at a freshly created
device, whose state machine is CLOSED. -/
theorem device_close_idempotent_witness :
    device_close device_initial = some device_initial ∧
    (∀ e d : device, device_close e = some d →
      device_close d = some d) :=
  device_close_idempotent device_initial rfl
